import Mathlib

/-!
Verification of the URDF export core of the `freecad.robotcad` workbench
(`src/freecad/workbench_ros/urdf_utils.py`).

The development shallowly embeds the module's data model and operations:

* real-valued vectors, quaternions and FreeCAD placements (millimetre
  translations, unit-quaternion rotations);
* the rotation-conversion layer `quaternion_matrix`, `euler_from_matrix`,
  `rpy_from_quaternion`, `rotation_from_rpy` (float arithmetic is modelled
  by exact real arithmetic, `math.atan2` by `Complex.arg`);
* the per-primitive centering functions and visual/collision emitters, the
  mesh emitter, the generic dispatcher and the group/LCS validator, with
  Python exceptions modelled by `Except String` and warnings collected in
  an explicit list;
* XML elements as a first-order tree whose attribute values record both the
  numeric value and the Python format applied to it (`.6` general format
  versus default `str`).

The FreeCAD host helpers imported from `freecad_utils`/`utils` (shape-kind
predicates, tree flattening, link resolution, `get_valid_filename`,
`xml_comment`) are not part of the repository snapshot; they are modelled
from the specification and marked as such in their doc comments.
-/

/-- Vector in 3-space (FreeCAD `fc.Vector`, lengths in millimetres). -/
@[ext]
structure Vec3 where
  x : ℝ
  y : ℝ
  z : ℝ

/-- Componentwise vector addition. -/
noncomputable def Vec3.add (a b : Vec3) : Vec3 := ⟨a.x + b.x, a.y + b.y, a.z + b.z⟩

/-- Quaternion `(qx, qy, qz, qw)` — FreeCAD `fc.Rotation`, scalar part last,
matching the `QuatList` convention of the source module. -/
@[ext]
structure Quat where
  x : ℝ
  y : ℝ
  z : ℝ
  w : ℝ

/-- Hamilton product of quaternions, scalar part last (FreeCAD
`Rotation.__mul__`). -/
noncomputable def quatMul (a b : Quat) : Quat :=
  ⟨a.w * b.x + a.x * b.w + a.y * b.z - a.z * b.y,
   a.w * b.y + a.y * b.w + a.z * b.x - a.x * b.z,
   a.w * b.z + a.z * b.w + a.x * b.y - a.y * b.x,
   a.w * b.w - a.x * b.x - a.y * b.y - a.z * b.z⟩

/-- Quaternion conjugate. -/
noncomputable def quatConj (a : Quat) : Quat := ⟨-a.x, -a.y, -a.z, a.w⟩

/-- The identity rotation `fc.Rotation()`. -/
noncomputable def idQuat : Quat := ⟨0, 0, 0, 1⟩

/-- Rotation action of a (unit) quaternion on a vector: the vector part of
`q * (v, 0) * conj q` (FreeCAD `Rotation.multVec`). -/
noncomputable def rotAct (q : Quat) (v : Vec3) : Vec3 :=
  let p := quatMul (quatMul q ⟨v.x, v.y, v.z, 0⟩) (quatConj q)
  ⟨p.x, p.y, p.z⟩

/-- FreeCAD `fc.Placement`: rigid transform with translation in
millimetres and rotation as a quaternion. -/
@[ext]
structure Placement where
  base : Vec3
  rot : Quat

/-- Placement composition `p1 * p2` (apply `p2` first, then `p1`):
`base = p1.base + p1.rot ⋙ p2.base`, `rot = p1.rot * p2.rot`. -/
noncomputable def placeMul (p1 p2 : Placement) : Placement :=
  ⟨Vec3.add p1.base (rotAct p1.rot p2.base), quatMul p1.rot p2.rot⟩

/-- The identity placement `fc.Placement()`. -/
noncomputable def idPlacement : Placement := ⟨⟨0, 0, 0⟩, idQuat⟩

/-- Machine epsilon of IEEE double precision, `np.finfo(float).eps`. -/
noncomputable def npFloatEps : ℝ := 1 / 2 ^ 52

/-- Small number to test whether a number is close to zero
(`_EPS = np.finfo(float).eps * 4.0` in the source). -/
noncomputable def _EPS : ℝ := npFloatEps * 4

/-- Two-argument arctangent `math.atan2 y x`: the angle in `(-π, π]` of the
point `(x, y)`, with `atan2 0 0 = 0`, modelled by `Complex.arg`. -/
noncomputable def atan2 (y x : ℝ) : ℝ := Complex.arg ⟨x, y⟩

/-- Homogeneous 4×4 matrix as produced by `quaternion_matrix`
(row-major named fields). -/
@[ext]
structure Mat4 where
  m00 : ℝ
  m01 : ℝ
  m02 : ℝ
  m03 : ℝ
  m10 : ℝ
  m11 : ℝ
  m12 : ℝ
  m13 : ℝ
  m20 : ℝ
  m21 : ℝ
  m22 : ℝ
  m23 : ℝ
  m30 : ℝ
  m31 : ℝ
  m32 : ℝ
  m33 : ℝ

/-- The 4×4 identity matrix (`np.identity(4)`). -/
noncomputable def identity4 : Mat4 :=
  ⟨1, 0, 0, 0, 0, 1, 0, 0, 0, 0, 1, 0, 0, 0, 0, 1⟩

/-- Embedding of `quaternion_matrix(quaternion)`: homogeneous rotation
matrix from a quaternion `(qx, qy, qz, qw)`.  If `dot(q, q) < _EPS` the
identity is returned, otherwise `q` is scaled by `sqrt(2 / dot(q, q))` and
the matrix is assembled from the outer product `q ⊗ q` exactly as in the
source. -/
noncomputable def quaternion_matrix (q : Quat) : Mat4 :=
  let nq := q.x * q.x + q.y * q.y + q.z * q.z + q.w * q.w
  if nq < _EPS then identity4
  else
    let s := Real.sqrt (2 / nq)
    let a := s * q.x
    let b := s * q.y
    let c := s * q.z
    let d := s * q.w
    ⟨1 - b * b - c * c, a * b - c * d, a * c + b * d, 0,
     a * b + c * d, 1 - a * a - c * c, b * c - a * d, 0,
     a * c - b * d, b * c + a * d, 1 - a * a - b * b, 0,
     0, 0, 0, 1⟩

/-- Embedding of `euler_from_matrix(matrix)`: fixed-frame X-Y-Z Euler
angles (the URDF convention) of the upper-left 3×3 block, with the
gimbal-lock branch taken when `cy = sqrt(M00² + M10²)` is at or below
`_EPS`. -/
noncomputable def euler_from_matrix (M : Mat4) : ℝ × ℝ × ℝ :=
  let cy := Real.sqrt (M.m00 * M.m00 + M.m10 * M.m10)
  if cy > _EPS then
    (atan2 M.m21 M.m22, atan2 (-M.m20) cy, atan2 M.m10 M.m00)
  else
    (atan2 (-M.m12) M.m11, atan2 (-M.m20) cy, 0)

/-- Embedding of `rpy_from_quaternion(q)`. -/
noncomputable def rpy_from_quaternion (q : Quat) : ℝ × ℝ × ℝ :=
  euler_from_matrix (quaternion_matrix q)

/-- `np.degrees`: radians to degrees. -/
noncomputable def np_degrees (r : ℝ) : ℝ := r * 180 / Real.pi

/-- FreeCAD `fc.Rotation(axis, angle_in_degrees)` for a unit axis: the
quaternion `(axis * sin(θ/2), cos(θ/2))` where `θ = angle · π / 180`
(the source only ever passes the unit axes `x`, `y`, `z`). -/
noncomputable def fcRotation (axis : Vec3) (deg : ℝ) : Quat :=
  let half := deg * Real.pi / 360
  ⟨axis.x * Real.sin half, axis.y * Real.sin half, axis.z * Real.sin half,
   Real.cos half⟩

/-- Embedding of `rotation_from_rpy(rpy)`:
`Rotation(z, degrees(yaw)) * Rotation(y, degrees(pitch)) *
Rotation(x, degrees(roll))`. -/
noncomputable def rotation_from_rpy (rpy : ℝ × ℝ × ℝ) : Quat :=
  quatMul
    (quatMul (fcRotation ⟨0, 0, 1⟩ (np_degrees rpy.2.2))
      (fcRotation ⟨0, 1, 0⟩ (np_degrees rpy.2.1)))
    (fcRotation ⟨1, 0, 0⟩ (np_degrees rpy.1))

/-- Attribute-value token of an emitted XML attribute: the numeric value
together with the Python formatting applied by the source
(`.6` general format = 6 significant digits, default `str`, or a plain
string splice). -/
inductive Fmt where
  | sig6 (val : ℝ)
  | pystr (val : ℝ)
  | lit (s : String)

/-- XML element tree (`xml.etree.ElementTree.Element`): tag, attributes
(each a space-separated list of formatted tokens) and children, or an XML
comment. -/
inductive XmlNode where
  | elem (tag : String) (attrs : List (String × List Fmt))
      (children : List XmlNode)
  | comment (text : String)

/-- Tag of an element (comments get the conventional pseudo-tag). -/
def XmlNode.tagOf : XmlNode → String
  | .elem t _ _ => t
  | .comment _ => "!comment"

/-- Tags of the children of an element, in document order. -/
def XmlNode.childTags : XmlNode → List String
  | .elem _ _ cs => cs.map XmlNode.tagOf
  | .comment _ => []

/-- Shape payload of a FreeCAD document object: one of the three supported
primitives (dimensions in millimetres, `Part::Box` / `Part::Cylinder` /
`Part::Sphere`) or an unsupported kind that the exporter treats as a mesh. -/
inductive Shape where
  | box (length width height : ℝ)
  | cylinder (radius height : ℝ)
  | sphere (radius : ℝ)
  | unsupported

/-- FreeCAD document-object tree as consumed by the export pipeline.
Modelled from the spec: a hierarchy of groups, `App::Part` containers and
`App::Link` objects whose leaves are geometric objects, plus local
coordinate systems; each non-group object carries a placement. -/
inductive DocObj where
  | solid (label : String) (shape : Shape) (placement : Placement)
  | group (label : String) (children : List DocObj)
  | part (label : String) (placement : Placement) (children : List DocObj)
  | fclink (label : String) (placement : Placement) (target : DocObj)
  | lcs (label : String) (placement : Placement)

/-- Label of a document object (`label_or` of `freecad_utils`, modelled
from the spec). -/
def DocObj.labelOf : DocObj → String
  | .solid l _ _ => l
  | .group l _ => l
  | .part l _ _ => l
  | .fclink l _ _ => l
  | .lcs l _ => l

/-- Placement attribute of a document object; plain groups carry none, the
identity stands in for the missing attribute and is only read behind
`has_placement` guards. -/
noncomputable def DocObj.placementOf : DocObj → Placement
  | .solid _ _ p => p
  | .group _ _ => idPlacement
  | .part _ p _ => p
  | .fclink _ p _ => p
  | .lcs _ p => p

/-- Modelled from the spec: shape-kind predicate `is_box` of
`freecad_utils` (TypeId test for `Part::Box`). -/
def is_box : DocObj → Bool
  | .solid _ (.box ..) _ => true
  | _ => false

/-- Modelled from the spec: shape-kind predicate `is_cylinder`
(TypeId test for `Part::Cylinder`). -/
def is_cylinder : DocObj → Bool
  | .solid _ (.cylinder ..) _ => true
  | _ => false

/-- Modelled from the spec: shape-kind predicate `is_sphere`
(TypeId test for `Part::Sphere`). -/
def is_sphere : DocObj → Bool
  | .solid _ (.sphere _) _ => true
  | _ => false

/-- Modelled from the spec: container predicate `is_group`
(TypeId test for `App::DocumentObjectGroup`). -/
def is_group : DocObj → Bool
  | .group .. => true
  | _ => false

/-- Modelled from the spec: predicate `is_part` (TypeId test for
`App::Part`). -/
def is_part : DocObj → Bool
  | .part .. => true
  | _ => false

/-- Modelled from the spec: predicate `is_link` of `freecad_utils`
(imported as `is_fclink`, TypeId test for `App::Link`). -/
def is_fclink : DocObj → Bool
  | .fclink .. => true
  | _ => false

/-- Modelled from the spec: predicate `is_lcs` (local coordinate system
marker). -/
def is_lcs : DocObj → Bool
  | .lcs .. => true
  | _ => false

/-- Modelled from the spec: `has_placement` — whether the object exposes a
`Placement` attribute (plain document-object groups do not). -/
def has_placement : DocObj → Bool
  | .group .. => false
  | _ => true

/-- Embedding of `urdf_origin_from_placement(p)`: an `origin` element whose
`xyz` attribute is the translation scaled to metres, formatted with 6
significant digits (`{v.x:.6}`), and whose `rpy` attribute is
`rpy_from_quaternion` of the rotation formatted with Python default
`str` (`{r[0]}`, no precision specifier in the source pattern). -/
noncomputable def urdf_origin_from_placement (p : Placement) : XmlNode :=
  let rpy := rpy_from_quaternion p.rot
  .elem "origin"
    [("xyz", [.sig6 (p.base.x * (1 / 1000)), .sig6 (p.base.y * (1 / 1000)),
              .sig6 (p.base.z * (1 / 1000))]),
     ("rpy", [.pystr rpy.1, .pystr rpy.2.1, .pystr rpy.2.2])]
    []

/-- Embedding of `urdf_geometry_box` (lengths in metres). -/
noncomputable def urdf_geometry_box (length_x length_y length_z : ℝ) : XmlNode :=
  .elem "geometry" []
    [.elem "box" [("size", [.pystr length_x, .pystr length_y, .pystr length_z])] []]

/-- Embedding of `urdf_geometry_sphere` (radius in metres). -/
noncomputable def urdf_geometry_sphere (radius : ℝ) : XmlNode :=
  .elem "geometry" [] [.elem "sphere" [("radius", [.pystr radius])] []]

/-- Embedding of `urdf_geometry_cylinder` (lengths in metres). -/
noncomputable def urdf_geometry_cylinder (radius length : ℝ) : XmlNode :=
  .elem "geometry" []
    [.elem "cylinder" [("radius", [.pystr radius]), ("length", [.pystr length])] []]

/-- Embedding of `urdf_geometry_mesh(mesh_name, package_name)`. -/
def urdf_geometry_mesh (mesh_name package_name : String) : XmlNode :=
  .elem "geometry" []
    [.elem "mesh"
      [("filename", [.lit ("package://" ++ package_name ++ "/meshes/" ++ mesh_name)])]
      []]

/-- Embedding of `urdf_box_placement_from_object(box, placement)`: the
placement of the box centre — the supplied placement (or the box's own when
none is supplied) composed with the translation `(L, W, H) / 2`; a
`RuntimeError` for a non-box argument. -/
noncomputable def urdf_box_placement_from_object (box : DocObj)
    (placement : Option Placement) : Except String Placement :=
  match box with
  | .solid _ (.box l w h) pl0 =>
      .ok (placeMul (placement.getD pl0) ⟨⟨l / 2, w / 2, h / 2⟩, idQuat⟩)
  | _ => .error "First argument must be a Part::Box"

/-- Embedding of `urdf_sphere_placement_from_object(sphere, placement)`:
the placement is returned unchanged (a sphere is already centred); a
`RuntimeError` for a non-sphere argument. -/
noncomputable def urdf_sphere_placement_from_object (sphere : DocObj)
    (placement : Option Placement) : Except String Placement :=
  match sphere with
  | .solid _ (.sphere _) pl0 => .ok (placement.getD pl0)
  | _ => .error "First argument must be a Part::Sphere"

/-- Embedding of `urdf_cylinder_placement_from_object(cyl, placement)`:
the supplied placement (or the cylinder's own) composed with the
translation `(0, 0, Height / 2)`; a `RuntimeError` for a non-cylinder
argument. -/
noncomputable def urdf_cylinder_placement_from_object (cyl : DocObj)
    (placement : Option Placement) : Except String Placement :=
  match cyl with
  | .solid _ (.cylinder _ h) pl0 =>
      .ok (placeMul (placement.getD pl0) ⟨⟨0, 0, h / 2⟩, idQuat⟩)
  | _ => .error "Argument must be a Part::Cylinder"

/-- Embedding of `_urdf_generic_from_box(box, generic, placement,
ignore_obj_placement)`: for a box, the element `<generic>` wrapping the
`origin` of the centred placement followed by the box `geometry` in
metres; a `RuntimeError` for a non-box argument.  When
`ignore_obj_placement` is false the box's own placement is multiplied into
the supplied placement first. -/
noncomputable def _urdf_generic_from_box (box : DocObj) (generic : String)
    (placement : Placement) (ignore_obj_placement : Bool) :
    Except String XmlNode :=
  match box with
  | .solid _ (.box l w h) pl0 =>
      let pl := if ignore_obj_placement then placement else placeMul placement pl0
      match urdf_box_placement_from_object box (some pl) with
      | .error e => .error e
      | .ok center_placement =>
          .ok (.elem generic []
            [urdf_origin_from_placement center_placement,
             urdf_geometry_box (l / 1000) (w / 1000) (h / 1000)])
  | _ => .error "Argument must be a Part::Box"

/-- Embedding of `_urdf_generic_from_sphere(sphere, generic, placement,
ignore_obj_placement)`.  The source computes the composed placement but
appends only the sphere `geometry` child to the parent element — no
`origin` child is emitted (unlike the box and cylinder emitters); the
composed placement is dead.  A `RuntimeError` for a non-sphere argument. -/
noncomputable def _urdf_generic_from_sphere (sphere : DocObj) (generic : String)
    (placement : Placement) (ignore_obj_placement : Bool) :
    Except String XmlNode :=
  match sphere with
  | .solid _ (.sphere r) pl0 =>
      let _pl := if ignore_obj_placement then placement else placeMul placement pl0
      .ok (.elem generic [] [urdf_geometry_sphere (r / 1000)])
  | _ => .error "Argument must be a Part::Sphere"

/-- Embedding of `_urdf_generic_from_cylinder(cyl, generic, placement,
ignore_obj_placement)`: for a cylinder, the element `<generic>` wrapping
the `origin` of the centred placement followed by the cylinder `geometry`
in metres; a `RuntimeError` for a non-cylinder argument. -/
noncomputable def _urdf_generic_from_cylinder (cyl : DocObj) (generic : String)
    (placement : Placement) (ignore_obj_placement : Bool) :
    Except String XmlNode :=
  match cyl with
  | .solid _ (.cylinder r h) pl0 =>
      let pl := if ignore_obj_placement then placement else placeMul placement pl0
      match urdf_cylinder_placement_from_object cyl (some pl) with
      | .error e => .error e
      | .ok center_placement =>
          .ok (.elem generic []
            [urdf_origin_from_placement center_placement,
             urdf_geometry_cylinder (r / 1000) (h / 1000)])
  | _ => .error "Argument must be a Part::Cylinder"

/-- Embedding of `urdf_visual_from_box`. -/
noncomputable def urdf_visual_from_box (box : DocObj) (placement : Placement)
    (ignore_obj_placement : Bool) : Except String XmlNode :=
  _urdf_generic_from_box box "visual" placement ignore_obj_placement

/-- Embedding of `urdf_collision_from_box`. -/
noncomputable def urdf_collision_from_box (box : DocObj) (placement : Placement)
    (ignore_obj_placement : Bool) : Except String XmlNode :=
  _urdf_generic_from_box box "collision" placement ignore_obj_placement

/-- Embedding of `urdf_visual_from_sphere`. -/
noncomputable def urdf_visual_from_sphere (sphere : DocObj) (placement : Placement)
    (ignore_obj_placement : Bool) : Except String XmlNode :=
  _urdf_generic_from_sphere sphere "visual" placement ignore_obj_placement

/-- Embedding of `urdf_collision_from_sphere`. -/
noncomputable def urdf_collision_from_sphere (sphere : DocObj) (placement : Placement)
    (ignore_obj_placement : Bool) : Except String XmlNode :=
  _urdf_generic_from_sphere sphere "collision" placement ignore_obj_placement

/-- Embedding of `urdf_visual_from_cylinder`. -/
noncomputable def urdf_visual_from_cylinder (cyl : DocObj) (placement : Placement)
    (ignore_obj_placement : Bool) : Except String XmlNode :=
  _urdf_generic_from_cylinder cyl "visual" placement ignore_obj_placement

/-- Embedding of `urdf_collision_from_cylinder`. -/
noncomputable def urdf_collision_from_cylinder (cyl : DocObj) (placement : Placement)
    (ignore_obj_placement : Bool) : Except String XmlNode :=
  _urdf_generic_from_cylinder cyl "collision" placement ignore_obj_placement

/-- Modelled from the spec: `get_valid_filename` of `utils` — the
filesystem-safe transform of a label (spaces become underscores, characters
other than letters, digits, dash, underscore and dot are dropped). -/
def get_valid_filename (s : String) : String :=
  String.mk ((s.toList.map (fun c => if c = ' ' then '_' else c)).filter
    (fun c => c.isAlphanum || c = '-' || c = '_' || c = '.'))

/-- Modelled from the spec: `xml_comment` of `utils` — the label as the
text of an XML comment. -/
def xml_comment (s : String) : String := s

/-- Embedding of `_urdf_generic_mesh(obj, mesh_name, package_name, generic,
placement)`: a `<generic>` element wrapping a comment with the object's
label, the `origin` of the given placement (no centring) and a mesh
`geometry` reference.  A `RuntimeError` when no placement is supplied and
the object has none of its own (`none` models passing Python `None`; the
default argument of the source is the identity placement, which is
truthy). -/
noncomputable def _urdf_generic_mesh (obj : DocObj) (mesh_name package_name
    generic : String) (placement : Option Placement) : Except String XmlNode :=
  if placement.isNone && !(has_placement obj) then
    .error "Argument must be a FreeCAD object with a Placement attribute"
  else
    match placement with
    | none => .error "AttributeError: NoneType has no attribute Rotation"
    | some pl =>
        .ok (.elem generic []
          [.comment (xml_comment obj.labelOf),
           urdf_origin_from_placement pl,
           urdf_geometry_mesh mesh_name package_name])

/-- Embedding of `urdf_visual_mesh`. -/
noncomputable def urdf_visual_mesh (obj : DocObj) (mesh_name package_name : String)
    (placement : Option Placement) : Except String XmlNode :=
  _urdf_generic_mesh obj mesh_name package_name "visual" placement

/-- Embedding of `urdf_collision_mesh`. -/
noncomputable def urdf_collision_mesh (obj : DocObj) (mesh_name package_name : String)
    (placement : Option Placement) : Except String XmlNode :=
  _urdf_generic_mesh obj mesh_name package_name "collision" placement

/-- Modelled from the spec: `obj.getLinkedObject(recursive=True)` — resolve
a chain of `App::Link` objects to the finally linked object; a non-link
resolves to itself. -/
def getLinkedObject : DocObj → DocObj
  | .fclink _ _ target => getLinkedObject target
  | o => o

/-- Modelled from the spec: the accumulated transform matrix returned by
`subobj.getLinkedObject(recursive=True, transform=True, matrix=...)` — the
composition of the placements along the link chain down to the resolved
object, including the resolved object's own placement. -/
noncomputable def linkedPlacementOf : DocObj → Placement
  | .fclink _ p target => placeMul p (linkedPlacementOf target)
  | o => o.placementOf

mutual

/-- Modelled from the spec: `get_leafs_and_subnames(obj)` of
`freecad_utils` — flatten a group/part hierarchy into its leaf objects
paired with their sub-paths, in depth-first discovery order (link objects
are leaves here; the dispatcher resolves them afterwards; the sub-path is
ignored by the dispatcher and modelled as the empty string). -/
def get_leafs_and_subnames : DocObj → List (DocObj × String)
  | .group _ children => leafsOfList children
  | .part _ _ children => leafsOfList children
  | o => [(o, "")]

/-- Leaves of a list of sibling objects, in order. -/
def leafsOfList : List DocObj → List (DocObj × String)
  | [] => []
  | o :: os => get_leafs_and_subnames o ++ leafsOfList os

end

/-- Export record `XmlForExport`: XML fragment, source object, resolved
placement and mesh filename (empty for primitives). -/
structure XmlForExport where
  xml : XmlNode
  object : DocObj
  placement : Placement
  mesh_filename : String

/-- Warning text used when a mesh is found with no package name
(`warn` call in `_urdf_generic_from_object`). -/
def missingPackageWarning : String :=
  "Internal error, package_name empty but mesh found, using package"

/-- Loop body of `_urdf_generic_from_object`: iterate over the flattened
leaves, resolve each leaf, compose the optional extra placement with the
leaf's accumulated matrix, dispatch on the resolved shape kind (with
`ignore_obj_placement=True`, the matrix already contains the object's own
placement), and fall back to a mesh reference for unsupported kinds.  The
mesh filename is derived from the label of the *root* argument's resolved
object (`obj.getLinkedObject(recursive=True).Label` in the source, `obj`
being the dispatcher argument, not the leaf).  `package_name` is a mutable
loop variable: when it is empty and a mesh is met, one warning is recorded
and it is reassigned to the literal `package`, so later meshes warn no
more.  Warnings are returned alongside the records. -/
noncomputable def _urdf_export_loop (root : DocObj) (generic : String)
    (placement : Option Placement) :
    List (DocObj × String) → String →
    Except String (List XmlForExport × List String)
  | [], _ => .ok ([], [])
  | (subobj, _) :: rest, package_name =>
      let linked_object := getLinkedObject subobj
      let this_placement :=
        match placement with
        | none => linkedPlacementOf subobj
        | some pl => placeMul pl (linkedPlacementOf subobj)
      if is_box linked_object then
        match _urdf_generic_from_box linked_object generic this_placement true with
        | .error e => .error e
        | .ok xml =>
            match _urdf_export_loop root generic placement rest package_name with
            | .error e => .error e
            | .ok (recs, ws) =>
                .ok (⟨xml, linked_object, this_placement, ""⟩ :: recs, ws)
      else if is_sphere linked_object then
        match _urdf_generic_from_sphere linked_object generic this_placement true with
        | .error e => .error e
        | .ok xml =>
            match _urdf_export_loop root generic placement rest package_name with
            | .error e => .error e
            | .ok (recs, ws) =>
                .ok (⟨xml, linked_object, this_placement, ""⟩ :: recs, ws)
      else if is_cylinder linked_object then
        match _urdf_generic_from_cylinder linked_object generic this_placement true with
        | .error e => .error e
        | .ok xml =>
            match _urdf_export_loop root generic placement rest package_name with
            | .error e => .error e
            | .ok (recs, ws) =>
                .ok (⟨xml, linked_object, this_placement, ""⟩ :: recs, ws)
      else
        let filename := get_valid_filename (getLinkedObject root).labelOf ++ ".dae"
        let pw : String × List String :=
          if package_name = "" then ("package", [missingPackageWarning])
          else (package_name, [])
        match _urdf_generic_mesh linked_object filename pw.1 generic
            (some this_placement) with
        | .error e => .error e
        | .ok xml =>
            match _urdf_export_loop root generic placement rest pw.1 with
            | .error e => .error e
            | .ok (recs, ws) =>
                .ok (⟨xml, linked_object, this_placement, filename⟩ :: recs,
                     pw.2 ++ ws)

/-- Embedding of `_urdf_generic_from_object(obj, generic, package_name,
placement)`: the export records for all leaves of `obj`, together with the
warnings surfaced along the way (the Python falsy `package_name` values
`None` and the empty string are both modelled by the empty string). -/
noncomputable def _urdf_generic_from_object (obj : DocObj) (generic : String)
    (package_name : String) (placement : Option Placement) :
    Except String (List XmlForExport × List String) :=
  _urdf_export_loop obj generic placement (get_leafs_and_subnames obj)
    package_name

/-- Embedding of `urdf_visual_from_object`. -/
noncomputable def urdf_visual_from_object (obj : DocObj) (package_name : String)
    (placement : Option Placement) :
    Except String (List XmlForExport × List String) :=
  _urdf_generic_from_object obj "visual" package_name placement

/-- Embedding of `urdf_collision_from_object`. -/
noncomputable def urdf_collision_from_object (obj : DocObj) (package_name : String)
    (placement : Option Placement) :
    Except String (List XmlForExport × List String) :=
  _urdf_generic_from_object obj "collision" package_name placement

/-- Alias `label_or` of `freecad_utils` (modelled from the spec). -/
def label_or (o : DocObj) : String := o.labelOf

/-- Warnings produced by the child loop of `export_group_with_lcs`:
non-link children and links to objects that are neither a local coordinate
system nor a part each yield one warning and are skipped. -/
def lcs_group_warnings : List DocObj → List String
  | [] => []
  | fc_link :: rest =>
      if !(is_fclink fc_link) then
        (label_or fc_link ++ " is not a link, ignoring") :: lcs_group_warnings rest
      else
        match fc_link with
        | .fclink _ _ linked_object =>
            if !(is_lcs linked_object || is_part linked_object) then
              ("Linked object of " ++ label_or fc_link ++
                " is not a coordinate system or part, ignoring") ::
                lcs_group_warnings rest
            else
              lcs_group_warnings rest
        | _ => lcs_group_warnings rest

/-- Embedding of `export_group_with_lcs(group, package_path)`: a
`ValueError` when the argument is not a document-object group; otherwise
every child is inspected (non-conforming children warn and are skipped)
and `True` is returned. -/
noncomputable def export_group_with_lcs (group : DocObj) (package_path : String) :
    Except String (Bool × List String) :=
  match group with
  | .group _ fc_links => .ok (true, lcs_group_warnings fc_links)
  | _ => .error "First argument must be a group, i.e. App::DocumentObjectGroup"

/-- Leaf classification used by the dispatcher: a leaf is a mesh
(unsupported) leaf when its resolved object is none of the three supported
primitives. -/
def isMeshLeaf (o : DocObj) : Bool :=
  !(is_box (getLinkedObject o) || is_sphere (getLinkedObject o) ||
    is_cylinder (getLinkedObject o))

/-- The `package://…/meshes/…` reference carried by a mesh fragment, when
the fragment has the shape produced by `_urdf_generic_mesh`. -/
def meshFilenameRefOf (x : XmlNode) : Option String :=
  match x with
  | .elem _ _ [_, _, .elem "geometry" _ [.elem "mesh" [(_, [.lit s])] _]] =>
      some s
  | _ => none

/-- Check of one export record against a package name: primitive records
(empty mesh filename) pass; a mesh record must reference
`package://<pkg>/meshes/<its mesh filename>`. -/
def recordMeshOk (pkg : String) (r : XmlForExport) : Bool :=
  if r.mesh_filename == "" then true
  else meshFilenameRefOf r.xml ==
    some ("package://" ++ pkg ++ "/meshes/" ++ r.mesh_filename)

/-- A real number expressible with at most 6 significant decimal digits,
i.e. of the form `m · 10^e` with `|m| < 10^6`.  Any float rounded to 6
significant digits denotes such a number. -/
def SixSigDecimal (x : ℝ) : Prop :=
  ∃ m e : ℤ, |m| < 10 ^ 6 ∧ x = (m : ℝ) * (10 : ℝ) ^ e

/-- The unit quaternion `Rz(90°) * Ry(β)` with `cos β = _EPS`: its rotation
matrix has `cy = sqrt(M00² + M10²) = _EPS`, landing exactly in the
gimbal-lock branch of `euler_from_matrix` while carrying a quarter-turn
yaw that the branch discards. -/
noncomputable def nearLockQuat : Quat :=
  ⟨-(Real.sqrt 2 / 2 * Real.sqrt ((1 - _EPS) / 2)),
   Real.sqrt 2 / 2 * Real.sqrt ((1 - _EPS) / 2),
   Real.sqrt 2 / 2 * Real.sqrt ((1 + _EPS) / 2),
   Real.sqrt 2 / 2 * Real.sqrt ((1 + _EPS) / 2)⟩

/-- Composing any placement with a pure translation leaves the rotation
unchanged and moves the base by the rotated translation vector. -/
theorem placeMul_pure_translation (P : Placement) (v : Vec3) :
    placeMul P ⟨v, idQuat⟩ = ⟨Vec3.add P.base (rotAct P.rot v), P.rot⟩ := by
  unfold placeMul
  ext <;> simp [quatMul, idQuat, rotAct, quatConj, Vec3.add]

/-- C4: for every quaternion whose squared norm `dot(q, q)` is below
`_EPS = 4 × machine-epsilon`, `quaternion_matrix` returns the 4×4 identity
matrix. -/
theorem quaternion_matrix_degenerate (q : Quat)
    (h : q.x * q.x + q.y * q.y + q.z * q.z + q.w * q.w < _EPS) :
    quaternion_matrix q = identity4 := by
  unfold quaternion_matrix
  simp [h]

/-- Witness for `quaternion_matrix_degenerate` at the zero quaternion
`(0, 0, 0, 0)`. -/
theorem quaternion_matrix_degenerate_witness :
    ((0 : ℝ) * 0 + 0 * 0 + 0 * 0 + 0 * 0 < _EPS) ∧
      quaternion_matrix ⟨0, 0, 0, 0⟩ = identity4 :=
  ⟨by norm_num [_EPS, npFloatEps],
   quaternion_matrix_degenerate ⟨0, 0, 0, 0⟩ (by norm_num [_EPS, npFloatEps])⟩

/-- C5: `euler_from_matrix` computes `cy = sqrt(M00² + M10²)`; above the
`_EPS` threshold it returns `(atan2 M21 M22, atan2 (-M20) cy,
atan2 M10 M00)`, at or below it returns `(atan2 (-M12) M11,
atan2 (-M20) cy, 0)`. -/
theorem euler_from_matrix_contract (M : Mat4) :
    euler_from_matrix M =
      if Real.sqrt (M.m00 ^ 2 + M.m10 ^ 2) > _EPS then
        (atan2 M.m21 M.m22,
         atan2 (-M.m20) (Real.sqrt (M.m00 ^ 2 + M.m10 ^ 2)),
         atan2 M.m10 M.m00)
      else
        (atan2 (-M.m12) M.m11,
         atan2 (-M.m20) (Real.sqrt (M.m00 ^ 2 + M.m10 ^ 2)),
         0) := by
  unfold euler_from_matrix
  simp only [pow_two]

/-- C3: the box centre placement is the supplied placement (or the box's
own when none is supplied) translated by `(Length, Width, Height) / 2` in
local axes with the rotation unchanged; the cylinder centre placement is
translated by `(0, 0, Height / 2)`; the sphere centre placement is the
input placement unchanged. -/
theorem primitive_center_placements (lbl : String) (l w h cr ch sr : ℝ)
    (pl0 : Placement) (supplied : Option Placement) :
    urdf_box_placement_from_object (.solid lbl (.box l w h) pl0) supplied =
      .ok ⟨Vec3.add (supplied.getD pl0).base
            (rotAct (supplied.getD pl0).rot ⟨l / 2, w / 2, h / 2⟩),
          (supplied.getD pl0).rot⟩ ∧
    urdf_cylinder_placement_from_object (.solid lbl (.cylinder cr ch) pl0)
        supplied =
      .ok ⟨Vec3.add (supplied.getD pl0).base
            (rotAct (supplied.getD pl0).rot ⟨0, 0, ch / 2⟩),
          (supplied.getD pl0).rot⟩ ∧
    urdf_sphere_placement_from_object (.solid lbl (.sphere sr) pl0) supplied =
      .ok (supplied.getD pl0) := by
  refine ⟨?_, ?_, rfl⟩ <;>
    simp [urdf_box_placement_from_object, urdf_cylinder_placement_from_object,
      placeMul_pure_translation]

/-- C9: each per-primitive centering function and each per-primitive
visual/collision emitter succeeds exactly on objects of its expected
primitive kind and fails with the invalid-argument error otherwise. -/
theorem primitive_kind_guards (o : DocObj) (supplied : Option Placement)
    (generic : String) (pl : Placement) (ign : Bool) :
    (urdf_box_placement_from_object o supplied).isOk = is_box o ∧
    (urdf_cylinder_placement_from_object o supplied).isOk = is_cylinder o ∧
    (urdf_sphere_placement_from_object o supplied).isOk = is_sphere o ∧
    (_urdf_generic_from_box o generic pl ign).isOk = is_box o ∧
    (_urdf_generic_from_sphere o generic pl ign).isOk = is_sphere o ∧
    (_urdf_generic_from_cylinder o generic pl ign).isOk = is_cylinder o := by
  cases o with
  | solid lbl s pl0 =>
      cases s <;>
        simp [urdf_box_placement_from_object,
          urdf_cylinder_placement_from_object,
          urdf_sphere_placement_from_object, _urdf_generic_from_box,
          _urdf_generic_from_sphere, _urdf_generic_from_cylinder,
          is_box, is_cylinder, is_sphere, Except.isOk, Except.toBool]
  | group lbl cs =>
      simp [urdf_box_placement_from_object,
        urdf_cylinder_placement_from_object,
        urdf_sphere_placement_from_object, _urdf_generic_from_box,
        _urdf_generic_from_sphere, _urdf_generic_from_cylinder,
        is_box, is_cylinder, is_sphere, Except.isOk, Except.toBool]
  | part lbl p cs =>
      simp [urdf_box_placement_from_object,
        urdf_cylinder_placement_from_object,
        urdf_sphere_placement_from_object, _urdf_generic_from_box,
        _urdf_generic_from_sphere, _urdf_generic_from_cylinder,
        is_box, is_cylinder, is_sphere, Except.isOk, Except.toBool]
  | fclink lbl p t =>
      simp [urdf_box_placement_from_object,
        urdf_cylinder_placement_from_object,
        urdf_sphere_placement_from_object, _urdf_generic_from_box,
        _urdf_generic_from_sphere, _urdf_generic_from_cylinder,
        is_box, is_cylinder, is_sphere, Except.isOk, Except.toBool]
  | lcs lbl p =>
      simp [urdf_box_placement_from_object,
        urdf_cylinder_placement_from_object,
        urdf_sphere_placement_from_object, _urdf_generic_from_box,
        _urdf_generic_from_sphere, _urdf_generic_from_cylinder,
        is_box, is_cylinder, is_sphere, Except.isOk, Except.toBool]

/-- Value returned by the group/LCS validator: `some b` when it returns
`b`, `none` when it raises. -/
def validatorOutcome : Except String (Bool × List String) → Option Bool
  | .ok (b, _) => some b
  | .error _ => none

/-- C10: `export_group_with_lcs` raises exactly when its input is not a
group; on every group input it returns `True` (never `False`), whatever
the children are — non-conforming children only contribute warnings. -/
theorem export_group_with_lcs_total (o : DocObj) (package_path : String) :
    validatorOutcome (export_group_with_lcs o package_path) =
      if is_group o then some true else none := by
  cases o <;> simp [export_group_with_lcs, validatorOutcome, is_group]

/-- C1 (failing evaluation): the sphere visual/collision emitter emits a
parent with a single `geometry` child and no `origin` child, while the box
and cylinder emitters emit exactly one `origin` followed by one
`geometry`. -/
theorem sphere_emitter_drops_origin :
    (_urdf_generic_from_sphere (.solid "ball" (.sphere 1) idPlacement)
        "visual" idPlacement false).map XmlNode.childTags =
      .ok ["geometry"] ∧
    (_urdf_generic_from_sphere (.solid "ball" (.sphere 1) idPlacement)
        "collision" idPlacement false).map XmlNode.childTags =
      .ok ["geometry"] ∧
    (_urdf_generic_from_box (.solid "b" (.box 1 2 3) idPlacement)
        "visual" idPlacement false).map XmlNode.childTags =
      .ok ["origin", "geometry"] ∧
    (_urdf_generic_from_cylinder (.solid "c" (.cylinder 1 2) idPlacement)
        "visual" idPlacement false).map XmlNode.childTags =
      .ok ["origin", "geometry"] :=
  ⟨rfl, rfl, rfl, rfl⟩

/-- Evaluation of `quaternion_matrix` at the unit quaternion
`(1, 0, 0, 0)` (half-turn about the x axis). -/
theorem quaternion_matrix_x_half_turn :
    quaternion_matrix ⟨1, 0, 0, 0⟩ =
      ⟨1, 0, 0, 0, 0, -1, 0, 0, 0, 0, -1, 0, 0, 0, 0, 1⟩ := by
  have hs : Real.sqrt (2 / (1 * 1 + 0 * 0 + 0 * 0 + 0 * 0)) *
      Real.sqrt (2 / (1 * 1 + 0 * 0 + 0 * 0 + 0 * 0)) = 2 := by
    rw [Real.mul_self_sqrt] <;> norm_num
  unfold quaternion_matrix
  rw [if_neg (by norm_num [_EPS, npFloatEps])]
  ext <;> simp <;> nlinarith [hs]

/-- Evaluation of `rpy_from_quaternion` at `(1, 0, 0, 0)`: roll `π`,
pitch and yaw `0`. -/
theorem rpy_from_quaternion_x_half_turn :
    rpy_from_quaternion ⟨1, 0, 0, 0⟩ = (Real.pi, 0, 0) := by
  rw [rpy_from_quaternion, quaternion_matrix_x_half_turn]
  unfold euler_from_matrix
  have hone : Real.sqrt ((1:ℝ) * 1 + 0 * 0) = 1 := by
    norm_num
  rw [hone, if_pos (by norm_num [_EPS, npFloatEps])]
  have hneg : (⟨-1, 0⟩ : ℂ) = (-1 : ℂ) := by
    simp [Complex.ext_iff]
  have hpos : (⟨1, 0⟩ : ℂ) = (1 : ℂ) := by
    simp [Complex.ext_iff]
  simp only [atan2, neg_zero, hneg, hpos, Complex.arg_neg_one, Complex.arg_one]

/-- C6 (counterexample): at the placement with zero translation and the
half-turn-about-x rotation, the emitted `rpy` attribute carries the raw
full-precision value `π` under Python default `str` formatting, and `π` is
not a number expressible with 6 significant decimal digits — so the `rpy`
values are not floats rounded to 6 significant digits as claimed. -/
theorem urdf_origin_rpy_full_precision :
    urdf_origin_from_placement ⟨⟨0, 0, 0⟩, ⟨1, 0, 0, 0⟩⟩ =
      .elem "origin"
        [("xyz", [.sig6 0, .sig6 0, .sig6 0]),
         ("rpy", [.pystr Real.pi, .pystr 0, .pystr 0])] [] ∧
    ¬ SixSigDecimal Real.pi := by
  constructor
  · simp [urdf_origin_from_placement, rpy_from_quaternion_x_half_turn]
  · rintro ⟨m, e, _, hme⟩
    refine irrational_pi ⟨m * (10 : ℚ) ^ e, ?_⟩
    push_cast
    exact hme.symm

/-- C6 (amended): the `origin` element of a placement carries the
translation scaled from millimetres to metres in its `xyz` attribute,
formatted to 6 significant digits, and the roll-pitch-yaw conversion of
the rotation in its `rpy` attribute at full default precision. -/
theorem urdf_origin_attributes (p : Placement) :
    urdf_origin_from_placement p =
      .elem "origin"
        [("xyz", [.sig6 (p.base.x * (1 / 1000)), .sig6 (p.base.y * (1 / 1000)),
                  .sig6 (p.base.z * (1 / 1000))]),
         ("rpy", [.pystr (rpy_from_quaternion p.rot).1,
                  .pystr (rpy_from_quaternion p.rot).2.1,
                  .pystr (rpy_from_quaternion p.rot).2.2])] [] := rfl

/-- Invariant of the dispatcher loop: it never raises, produces one record
per leaf in order, records the root-derived mesh filename exactly on mesh
leaves, warns exactly once when the package name starts out empty and some
mesh leaf occurs, and stamps every mesh reference with the effective
package name (the fallback literal `package` when the initial name is
empty). -/
theorem export_loop_spec (root : DocObj) (generic : String)
    (pl : Option Placement) :
    ∀ (ls : List (DocObj × String)) (pn : String),
    ∃ recs ws,
      _urdf_export_loop root generic pl ls pn = .ok (recs, ws) ∧
      recs.map XmlForExport.mesh_filename =
        ls.map (fun p => if isMeshLeaf p.1 then
          get_valid_filename (getLinkedObject root).labelOf ++ ".dae"
          else "") ∧
      ws = (if pn = "" ∧ ls.any (fun p => isMeshLeaf p.1) = true then
        [missingPackageWarning] else []) ∧
      recs.all (recordMeshOk (if pn = "" then "package" else pn)) = true := by
  intro ls
  induction ls with
  | nil =>
      intro pn
      exact ⟨[], [], rfl, rfl, by simp, rfl⟩
  | cons head rest ih =>
      intro pn
      obtain ⟨subobj, sn⟩ := head
      have hdae : get_valid_filename (getLinkedObject root).labelOf ++ ".dae" ≠ "" := by
        intro h
        have := congrArg String.length h
        simp [String.length_append] at this
        exact absurd this.2 (by decide)
      by_cases hmesh : isMeshLeaf subobj = true
      · have hbsc : is_box (getLinkedObject subobj) = false ∧
            is_sphere (getLinkedObject subobj) = false ∧
            is_cylinder (getLinkedObject subobj) = false := by
          simpa [isMeshLeaf, and_assoc] using hmesh
        by_cases hpn : pn = ""
        · obtain ⟨recs, ws, hr, hmap, hws, hall⟩ := ih "package"
          simp only [_urdf_export_loop, hbsc.1, hbsc.2.1, hbsc.2.2,
            Bool.false_eq_true, if_false, hpn, if_true, _urdf_generic_mesh,
            Option.isNone_some, Bool.false_and, Bool.and_self, hr]
          refine ⟨_, _, rfl, ?_, ?_, ?_⟩
          · simp [hmap, hmesh]
          · simp [hws, hmesh]
          · simp only [List.all_cons, Bool.and_eq_true]
            refine ⟨?_, ?_⟩
            · simp [recordMeshOk, hdae, meshFilenameRefOf, urdf_geometry_mesh]
            · simpa using hall
        · obtain ⟨recs, ws, hr, hmap, hws, hall⟩ := ih pn
          simp only [_urdf_export_loop, hbsc.1, hbsc.2.1, hbsc.2.2,
            Bool.false_eq_true, if_false, hpn, if_true, _urdf_generic_mesh,
            Option.isNone_some, Bool.false_and, Bool.and_self, hr]
          refine ⟨_, _, rfl, ?_, ?_, ?_⟩
          · simp [hmap, hmesh]
          · simp [hws, hpn]
          · simp only [List.all_cons, Bool.and_eq_true]
            refine ⟨?_, ?_⟩
            · simp [recordMeshOk, hdae, meshFilenameRefOf, urdf_geometry_mesh,
                hpn]
            · simpa [hpn] using hall
      · obtain ⟨recs, ws, hr, hmap, hws, hall⟩ := ih pn
        rcases hLO : getLinkedObject subobj with ⟨lbl, shape, pl0⟩ | ⟨lbl, cs⟩ |
            ⟨lbl, p0, cs⟩ | ⟨lbl, p0, t⟩ | ⟨lbl, p0⟩
        · cases shape with
          | box l w h =>
              have hml : isMeshLeaf subobj = false := by
                simp [isMeshLeaf, hLO, is_box]
              simp only [_urdf_export_loop, hLO, is_box, if_true,
                _urdf_generic_from_box, urdf_box_placement_from_object, hr]
              refine ⟨_, _, rfl, ?_, ?_, ?_⟩
              · simp [hmap, hml]
              · simp only [List.any_cons, hml, Bool.false_or]
                exact hws
              · simp [recordMeshOk, hall]
          | cylinder r h =>
              have hml : isMeshLeaf subobj = false := by
                simp [isMeshLeaf, hLO, is_cylinder]
              simp only [_urdf_export_loop, hLO, is_box, is_sphere,
                is_cylinder, Bool.false_eq_true, if_false, if_true,
                _urdf_generic_from_cylinder,
                urdf_cylinder_placement_from_object, hr]
              refine ⟨_, _, rfl, ?_, ?_, ?_⟩
              · simp [hmap, hml]
              · simp only [List.any_cons, hml, Bool.false_or]
                exact hws
              · simp [recordMeshOk, hall]
          | sphere r =>
              have hml : isMeshLeaf subobj = false := by
                simp [isMeshLeaf, hLO, is_sphere]
              simp only [_urdf_export_loop, hLO, is_box, is_sphere,
                Bool.false_eq_true, if_false, if_true,
                _urdf_generic_from_sphere, hr]
              refine ⟨_, _, rfl, ?_, ?_, ?_⟩
              · simp [hmap, hml]
              · simp only [List.any_cons, hml, Bool.false_or]
                exact hws
              · simp [recordMeshOk, hall]
          | unsupported =>
              exact absurd (by simp [isMeshLeaf, hLO, is_box, is_sphere,
                is_cylinder]) hmesh
        · exact absurd (by simp [isMeshLeaf, hLO, is_box, is_sphere,
            is_cylinder]) hmesh
        · exact absurd (by simp [isMeshLeaf, hLO, is_box, is_sphere,
            is_cylinder]) hmesh
        · exact absurd (by simp [isMeshLeaf, hLO, is_box, is_sphere,
            is_cylinder]) hmesh
        · exact absurd (by simp [isMeshLeaf, hLO, is_box, is_sphere,
            is_cylinder]) hmesh

/-- C7 (counterexample): exporting a group labelled `assembly` containing a
single mesh leaf labelled `wheel mesh` records the filename derived from
the *root* label, `assembly.dae`, not the filesystem-safe transform of the
leaf's label `wheel_mesh.dae`. -/
theorem mesh_filename_from_root_not_leaf :
    (_urdf_generic_from_object
        (.group "assembly" [.solid "wheel mesh" .unsupported idPlacement])
        "visual" "pkg" none).map
      (fun r => r.1.map XmlForExport.mesh_filename) = .ok ["assembly.dae"] ∧
    get_valid_filename "wheel mesh" ++ ".dae" = "wheel_mesh.dae" ∧
    ("assembly.dae" : String) ≠ "wheel_mesh.dae" := by
  refine ⟨rfl, rfl, ?_⟩
  decide

/-- C7 (amended): every mesh record produced by the generic dispatcher
carries the filename derived from the label of the dispatcher's root
argument's resolved object (with `.dae` appended), and primitive records
carry the empty filename. -/
theorem mesh_filenames_use_root_label (o : DocObj) (generic pn : String)
    (pl : Option Placement) :
    ∃ recs ws, _urdf_generic_from_object o generic pn pl = .ok (recs, ws) ∧
      recs.map XmlForExport.mesh_filename =
        (get_leafs_and_subnames o).map (fun p => if isMeshLeaf p.1 then
          get_valid_filename (getLinkedObject o).labelOf ++ ".dae" else "") := by
  obtain ⟨recs, ws, hr, hmap, _, _⟩ :=
    export_loop_spec o generic pl (get_leafs_and_subnames o) pn
  exact ⟨recs, ws, hr, hmap⟩

/-- C8: with no package name supplied, the generic dispatcher still
produces one export record per leaf without raising; it emits exactly one
warning when some mesh leaf occurs (none otherwise), and every mesh
reference uses the fallback package literal `package`. -/
theorem mesh_fallback_single_warning (o : DocObj) (generic : String)
    (pl : Option Placement) :
    ∃ recs ws, _urdf_generic_from_object o generic "" pl = .ok (recs, ws) ∧
      recs.length = (get_leafs_and_subnames o).length ∧
      ws = (if (get_leafs_and_subnames o).any (fun p => isMeshLeaf p.1) = true
        then [missingPackageWarning] else []) ∧
      recs.all (recordMeshOk "package") = true := by
  obtain ⟨recs, ws, hr, hmap, hws, hall⟩ :=
    export_loop_spec o generic pl (get_leafs_and_subnames o) ""
  refine ⟨recs, ws, hr, ?_, ?_, ?_⟩
  · have := congrArg List.length hmap
    simpa using this
  · rw [hws]
    simp only [eq_self_iff_true, true_and]
  · simpa using hall

/-- For a unit quaternion the scaling by `sqrt(2 / dot(q, q))` reduces
`quaternion_matrix` to the standard rotation matrix with coefficient 2. -/
theorem quaternion_matrix_unit (q : Quat)
    (h : q.x ^ 2 + q.y ^ 2 + q.z ^ 2 + q.w ^ 2 = 1) :
    quaternion_matrix q =
      ⟨1 - 2 * (q.y ^ 2 + q.z ^ 2), 2 * (q.x * q.y - q.z * q.w),
       2 * (q.x * q.z + q.y * q.w), 0,
       2 * (q.x * q.y + q.z * q.w), 1 - 2 * (q.x ^ 2 + q.z ^ 2),
       2 * (q.y * q.z - q.x * q.w), 0,
       2 * (q.x * q.z - q.y * q.w), 2 * (q.y * q.z + q.x * q.w),
       1 - 2 * (q.x ^ 2 + q.y ^ 2), 0,
       0, 0, 0, 1⟩ := by
  obtain ⟨x, y, z, w⟩ := q
  have hnq : x * x + y * y + z * z + w * w = 1 := by linear_combination h
  have hs2 : Real.sqrt (2 / (x * x + y * y + z * z + w * w)) *
      Real.sqrt (2 / (x * x + y * y + z * z + w * w)) = 2 := by
    rw [hnq, Real.mul_self_sqrt] <;> norm_num
  have hlt : ¬(x * x + y * y + z * z + w * w < _EPS) := by
    rw [hnq]
    norm_num [_EPS, npFloatEps]
  simp only [quaternion_matrix]
  rw [if_neg hlt]
  ext
  · dsimp only
    linear_combination (-(y ^ 2 + z ^ 2)) * hs2
  · dsimp only
    linear_combination (x * y - z * w) * hs2
  · dsimp only
    linear_combination (x * z + y * w) * hs2
  · rfl
  · dsimp only
    linear_combination (x * y + z * w) * hs2
  · dsimp only
    linear_combination (-(x ^ 2 + z ^ 2)) * hs2
  · dsimp only
    linear_combination (y * z - x * w) * hs2
  · rfl
  · dsimp only
    linear_combination (x * z - y * w) * hs2
  · dsimp only
    linear_combination (y * z + x * w) * hs2
  · dsimp only
    linear_combination (-(x ^ 2 + y ^ 2)) * hs2
  · rfl
  · rfl
  · rfl
  · rfl
  · rfl

/-- The conjugation action is multiplicative: acting by a product is acting
by the right factor, then by the left one. -/
theorem rotAct_quatMul (a b : Quat) (v : Vec3) :
    rotAct (quatMul a b) v = rotAct a (rotAct b v) := by
  ext <;> simp only [rotAct, quatMul, quatConj] <;> ring

/-- Action of the half-angle z-axis quaternion: rotation by `θ` about z. -/
theorem rotAct_z_half (θ : ℝ) (v : Vec3) :
    rotAct ⟨0, 0, Real.sin (θ / 2), Real.cos (θ / 2)⟩ v =
      ⟨Real.cos θ * v.x - Real.sin θ * v.y,
       Real.sin θ * v.x + Real.cos θ * v.y, v.z⟩ := by
  have h1 : Real.sin (θ / 2) ^ 2 + Real.cos (θ / 2) ^ 2 = 1 :=
    Real.sin_sq_add_cos_sq _
  have hc : Real.cos (θ / 2) ^ 2 - Real.sin (θ / 2) ^ 2 = Real.cos θ := by
    have h2 := Real.cos_two_mul (θ / 2)
    rw [show 2 * (θ / 2) = θ by ring] at h2
    linarith
  have hs : 2 * Real.sin (θ / 2) * Real.cos (θ / 2) = Real.sin θ := by
    have h2 := Real.sin_two_mul (θ / 2)
    rw [show 2 * (θ / 2) = θ by ring] at h2
    linarith
  ext
  · simp only [rotAct, quatMul, quatConj]
    linear_combination v.x * hc - v.y * hs
  · simp only [rotAct, quatMul, quatConj]
    linear_combination v.x * hs + v.y * hc
  · simp only [rotAct, quatMul, quatConj]
    linear_combination v.z * h1

/-- Action of the half-angle y-axis quaternion: rotation by `θ` about y. -/
theorem rotAct_y_half (θ : ℝ) (v : Vec3) :
    rotAct ⟨0, Real.sin (θ / 2), 0, Real.cos (θ / 2)⟩ v =
      ⟨Real.cos θ * v.x + Real.sin θ * v.z, v.y,
       -Real.sin θ * v.x + Real.cos θ * v.z⟩ := by
  have h1 : Real.sin (θ / 2) ^ 2 + Real.cos (θ / 2) ^ 2 = 1 :=
    Real.sin_sq_add_cos_sq _
  have hc : Real.cos (θ / 2) ^ 2 - Real.sin (θ / 2) ^ 2 = Real.cos θ := by
    have h2 := Real.cos_two_mul (θ / 2)
    rw [show 2 * (θ / 2) = θ by ring] at h2
    linarith
  have hs : 2 * Real.sin (θ / 2) * Real.cos (θ / 2) = Real.sin θ := by
    have h2 := Real.sin_two_mul (θ / 2)
    rw [show 2 * (θ / 2) = θ by ring] at h2
    linarith
  ext
  · simp only [rotAct, quatMul, quatConj]
    linear_combination v.x * hc + v.z * hs
  · simp only [rotAct, quatMul, quatConj]
    linear_combination v.y * h1
  · simp only [rotAct, quatMul, quatConj]
    linear_combination v.z * hc - v.x * hs

/-- Action of the half-angle x-axis quaternion: rotation by `θ` about x. -/
theorem rotAct_x_half (θ : ℝ) (v : Vec3) :
    rotAct ⟨Real.sin (θ / 2), 0, 0, Real.cos (θ / 2)⟩ v =
      ⟨v.x, Real.cos θ * v.y - Real.sin θ * v.z,
       Real.sin θ * v.y + Real.cos θ * v.z⟩ := by
  have h1 : Real.sin (θ / 2) ^ 2 + Real.cos (θ / 2) ^ 2 = 1 :=
    Real.sin_sq_add_cos_sq _
  have hc : Real.cos (θ / 2) ^ 2 - Real.sin (θ / 2) ^ 2 = Real.cos θ := by
    have h2 := Real.cos_two_mul (θ / 2)
    rw [show 2 * (θ / 2) = θ by ring] at h2
    linarith
  have hs : 2 * Real.sin (θ / 2) * Real.cos (θ / 2) = Real.sin θ := by
    have h2 := Real.sin_two_mul (θ / 2)
    rw [show 2 * (θ / 2) = θ by ring] at h2
    linarith
  ext
  · simp only [rotAct, quatMul, quatConj]
    linear_combination v.x * h1
  · simp only [rotAct, quatMul, quatConj]
    linear_combination v.y * hc - v.z * hs
  · simp only [rotAct, quatMul, quatConj]
    linear_combination v.y * hs + v.z * hc

/-- The FreeCAD axis rotation by `degrees(θ)` about a unit axis is the
half-angle quaternion of `θ`: the degree round trip cancels. -/
theorem fcRotation_np_degrees (axis : Vec3) (θ : ℝ) :
    fcRotation axis (np_degrees θ) =
      ⟨axis.x * Real.sin (θ / 2), axis.y * Real.sin (θ / 2),
       axis.z * Real.sin (θ / 2), Real.cos (θ / 2)⟩ := by
  have hhalf : np_degrees θ * Real.pi / 360 = θ / 2 := by
    unfold np_degrees
    field_simp
    ring
  simp only [fcRotation, hhalf]

/-- Action of `rotation_from_rpy (roll, pitch, yaw)` on a vector:
`Rz(yaw) ∘ Ry(pitch) ∘ Rx(roll)`. -/
theorem rotAct_rotation_from_rpy (a b c : ℝ) (v : Vec3) :
    rotAct (rotation_from_rpy (a, b, c)) v =
      ⟨Real.cos c * (Real.cos b * v.x +
          Real.sin b * (Real.sin a * v.y + Real.cos a * v.z)) -
        Real.sin c * (Real.cos a * v.y - Real.sin a * v.z),
       Real.sin c * (Real.cos b * v.x +
          Real.sin b * (Real.sin a * v.y + Real.cos a * v.z)) +
        Real.cos c * (Real.cos a * v.y - Real.sin a * v.z),
       -Real.sin b * v.x +
        Real.cos b * (Real.sin a * v.y + Real.cos a * v.z)⟩ := by
  show rotAct (quatMul (quatMul (fcRotation ⟨0, 0, 1⟩ (np_degrees c))
      (fcRotation ⟨0, 1, 0⟩ (np_degrees b)))
      (fcRotation ⟨1, 0, 0⟩ (np_degrees a))) v = _
  rw [rotAct_quatMul, rotAct_quatMul, fcRotation_np_degrees,
    fcRotation_np_degrees, fcRotation_np_degrees]
  dsimp only
  rw [show ((0:ℝ) * Real.sin (a/2)) = 0 by ring,
    show ((1:ℝ) * Real.sin (a/2)) = Real.sin (a/2) by ring,
    show ((0:ℝ) * Real.sin (b/2)) = 0 by ring,
    show ((1:ℝ) * Real.sin (b/2)) = Real.sin (b/2) by ring,
    show ((0:ℝ) * Real.sin (c/2)) = 0 by ring,
    show ((1:ℝ) * Real.sin (c/2)) = Real.sin (c/2) by ring]
  rw [rotAct_x_half, rotAct_y_half, rotAct_z_half]

/-- C2 (amended): for every unit quaternion whose derived rotation matrix
falls in the non-degenerate branch of `euler_from_matrix`
(`cy = sqrt(M00² + M10²) > _EPS`), the rotation rebuilt by
`rotation_from_rpy` from `rpy_from_quaternion q` has exactly the same
rotation action as `q` on every vector. -/
theorem rotation_roundtrip_exact (q : Quat)
    (h : q.x ^ 2 + q.y ^ 2 + q.z ^ 2 + q.w ^ 2 = 1)
    (hcy : Real.sqrt ((quaternion_matrix q).m00 * (quaternion_matrix q).m00 +
      (quaternion_matrix q).m10 * (quaternion_matrix q).m10) > _EPS)
    (v : Vec3) :
    rotAct (rotation_from_rpy (rpy_from_quaternion q)) v = rotAct q v := by
  have hM := quaternion_matrix_unit q h
  obtain ⟨x, y, z, w⟩ := q
  rw [hM] at hcy
  dsimp only at hcy
  simp only [rpy_from_quaternion]
  rw [hM]
  simp only [euler_from_matrix]
  set cy := Real.sqrt ((1 - 2 * (y ^ 2 + z ^ 2)) * (1 - 2 * (y ^ 2 + z ^ 2)) +
    2 * (x * y + z * w) * (2 * (x * y + z * w))) with hcydef
  rw [if_pos hcy]
  have hEPS0 : (0 : ℝ) < _EPS := by norm_num [_EPS, npFloatEps]
  have hcy0 : 0 < cy := lt_trans hEPS0 hcy
  have harg : 0 ≤ (1 - 2 * (y ^ 2 + z ^ 2)) * (1 - 2 * (y ^ 2 + z ^ 2)) +
      2 * (x * y + z * w) * (2 * (x * y + z * w)) :=
    add_nonneg (mul_self_nonneg _) (mul_self_nonneg _)
  have hsq : cy ^ 2 = (1 - 2 * (y ^ 2 + z ^ 2)) * (1 - 2 * (y ^ 2 + z ^ 2)) +
      2 * (x * y + z * w) * (2 * (x * y + z * w)) := by
    rw [hcydef]
    exact Real.sq_sqrt harg
  have r1 : (1 - 2 * (y ^ 2 + z ^ 2)) ^ 2 + (2 * (x * y + z * w)) ^ 2 + (2 * (x * z - y * w)) ^ 2 = 1 := by
    linear_combination (4 * y ^ 2 + 4 * z ^ 2) * h
  have rHI : (1 - 2 * (x ^ 2 + y ^ 2)) * (1 - 2 * (x ^ 2 + y ^ 2)) + (2 * (y * z + x * w)) * (2 * (y * z + x * w)) =
      (1 - 2 * (y ^ 2 + z ^ 2)) * (1 - 2 * (y ^ 2 + z ^ 2)) +
      2 * (x * y + z * w) * (2 * (x * y + z * w)) := by
    linear_combination (4 * x ^ 2 - 4 * z ^ 2) * h
  have g1 : (2 * (x * y - z * w)) * ((1 - 2 * (y ^ 2 + z ^ 2)) * (1 - 2 * (y ^ 2 + z ^ 2)) + (2 * (x * y + z * w)) * (2 * (x * y + z * w))) + (1 - 2 * (y ^ 2 + z ^ 2)) * (2 * (x * z - y * w)) * (2 * (y * z + x * w)) + (2 * (x * y + z * w)) * (1 - 2 * (x ^ 2 + y ^ 2)) = 0 := by
    linear_combination (8 * x * y ^ 3 - 4 * x * y - 8 * z ^ 3 * w) * h
  have g2 : (2 * (x * z + y * w)) * ((1 - 2 * (y ^ 2 + z ^ 2)) * (1 - 2 * (y ^ 2 + z ^ 2)) + (2 * (x * y + z * w)) * (2 * (x * y + z * w))) + (1 - 2 * (y ^ 2 + z ^ 2)) * (2 * (x * z - y * w)) * (1 - 2 * (x ^ 2 + y ^ 2)) - (2 * (x * y + z * w)) * (2 * (y * z + x * w)) = 0 := by
    linear_combination (16 * x * y ^ 2 * z + 8 * x * z ^ 3 - 4 * x * z +
      8 * y * z ^ 2 * w) * h
  have g3 : (1 - 2 * (x ^ 2 + z ^ 2)) * ((1 - 2 * (y ^ 2 + z ^ 2)) * (1 - 2 * (y ^ 2 + z ^ 2)) + (2 * (x * y + z * w)) * (2 * (x * y + z * w))) + (2 * (x * y + z * w)) * (2 * (x * z - y * w)) * (2 * (y * z + x * w)) - (1 - 2 * (y ^ 2 + z ^ 2)) * (1 - 2 * (x ^ 2 + y ^ 2)) = 0 := by
    linear_combination (-8 * x ^ 2 * y ^ 2 - 8 * x * y * z * w -
      8 * y ^ 2 * z ^ 2 - 8 * z ^ 4 + 4 * z ^ 2) * h
  have g4 : (2 * (y * z - x * w)) * ((1 - 2 * (y ^ 2 + z ^ 2)) * (1 - 2 * (y ^ 2 + z ^ 2)) + (2 * (x * y + z * w)) * (2 * (x * y + z * w))) + (2 * (x * y + z * w)) * (2 * (x * z - y * w)) * (1 - 2 * (x ^ 2 + y ^ 2)) + (1 - 2 * (y ^ 2 + z ^ 2)) * (2 * (y * z + x * w)) = 0 := by
    linear_combination (-8 * x ^ 2 * y * z - 8 * x * z ^ 2 * w +
      8 * y ^ 3 * z + 8 * y * z ^ 3 - 4 * y * z) * h
  have hzne : ((⟨1 - 2 * (y ^ 2 + z ^ 2), 2 * (x * y + z * w)⟩ : ℂ)) ≠ 0 := by
    intro hh
    obtain ⟨h1, h2⟩ := Complex.ext_iff.mp hh
    simp only [Complex.zero_re, Complex.zero_im] at h1 h2
    have h0 : cy ^ 2 = 0 := by
      rw [hsq, h1, h2]
      ring
    exact (pow_pos hcy0 2).ne' h0
  have hIHne : ((⟨1 - 2 * (x ^ 2 + y ^ 2), 2 * (y * z + x * w)⟩ : ℂ)) ≠ 0 := by
    intro hh
    obtain ⟨h1, h2⟩ := Complex.ext_iff.mp hh
    simp only [Complex.zero_re, Complex.zero_im] at h1 h2
    have h0 : cy ^ 2 = 0 := by
      rw [hsq, ← rHI, h1, h2]
      ring
    exact (pow_pos hcy0 2).ne' h0
  have harg1 : cy * cy + -(2 * (x * z - y * w)) * -(2 * (x * z - y * w)) = 1 := by
    linear_combination hsq + r1
  have hbne : ((⟨cy, -(2 * (x * z - y * w))⟩ : ℂ)) ≠ 0 := by
    intro hh
    obtain ⟨h1, _⟩ := Complex.ext_iff.mp hh
    simp only [Complex.zero_re] at h1
    exact (ne_of_gt hcy0) h1
  have hIH : Real.sqrt ((1 - 2 * (x ^ 2 + y ^ 2)) * (1 - 2 * (x ^ 2 + y ^ 2)) + (2 * (y * z + x * w)) * (2 * (y * z + x * w))) = cy := by
    rw [rHI, ← hcydef]
  have hcz : Real.cos (atan2 (2 * (x * y + z * w)) (1 - 2 * (y ^ 2 + z ^ 2))) * cy = 1 - 2 * (y ^ 2 + z ^ 2) := by
    simp only [atan2]
    rw [Complex.cos_arg hzne, Complex.abs_apply, Complex.normSq_mk]
    dsimp only
    rw [← hcydef]
    exact div_mul_cancel₀ _ (ne_of_gt hcy0)
  have hsz : Real.sin (atan2 (2 * (x * y + z * w)) (1 - 2 * (y ^ 2 + z ^ 2))) * cy = 2 * (x * y + z * w) := by
    simp only [atan2]
    rw [Complex.sin_arg, Complex.abs_apply, Complex.normSq_mk]
    dsimp only
    rw [← hcydef]
    exact div_mul_cancel₀ _ (ne_of_gt hcy0)
  have hcx : Real.cos (atan2 (2 * (y * z + x * w)) (1 - 2 * (x ^ 2 + y ^ 2))) * cy = 1 - 2 * (x ^ 2 + y ^ 2) := by
    simp only [atan2]
    rw [Complex.cos_arg hIHne, Complex.abs_apply, Complex.normSq_mk]
    dsimp only
    rw [hIH]
    exact div_mul_cancel₀ _ (ne_of_gt hcy0)
  have hsx : Real.sin (atan2 (2 * (y * z + x * w)) (1 - 2 * (x ^ 2 + y ^ 2))) * cy = 2 * (y * z + x * w) := by
    simp only [atan2]
    rw [Complex.sin_arg, Complex.abs_apply, Complex.normSq_mk]
    dsimp only
    rw [hIH]
    exact div_mul_cancel₀ _ (ne_of_gt hcy0)
  have hcb : Real.cos (atan2 (-(2 * (x * z - y * w))) cy) = cy := by
    simp only [atan2]
    rw [Complex.cos_arg hbne, Complex.abs_apply, Complex.normSq_mk]
    dsimp only
    rw [harg1, Real.sqrt_one, div_one]
  have hsb : Real.sin (atan2 (-(2 * (x * z - y * w))) cy) = -(2 * (x * z - y * w)) := by
    simp only [atan2]
    rw [Complex.sin_arg, Complex.abs_apply, Complex.normSq_mk]
    dsimp only
    rw [harg1, Real.sqrt_one, div_one]
  rw [rotAct_rotation_from_rpy, hcb, hsb]
  simp only [rotAct, quatMul, quatConj]
  ext
  · dsimp only
    apply mul_left_cancel₀ (pow_ne_zero 2 (ne_of_gt hcy0))
    linear_combination (cy ^ 2 * v.x - (2 * (x * z - y * w)) * (2 * (y * z + x * w)) * v.y - (2 * (x * z - y * w)) * (1 - 2 * (x ^ 2 + y ^ 2)) * v.z) * hcz + (-(1 - 2 * (x ^ 2 + y ^ 2)) * v.y + (2 * (y * z + x * w)) * v.z) * hsz + (-(2 * (x * y + z * w)) * v.y - (1 - 2 * (y ^ 2 + z ^ 2)) * (2 * (x * z - y * w)) * v.z - v.y * (Real.sin (atan2 (2 * (x * y + z * w)) (1 - 2 * (y ^ 2 + z ^ 2))) * cy - (2 * (x * y + z * w))) - (2 * (x * z - y * w)) * v.z * (Real.cos (atan2 (2 * (x * y + z * w)) (1 - 2 * (y ^ 2 + z ^ 2))) * cy - (1 - 2 * (y ^ 2 + z ^ 2)))) * hcx + (-(1 - 2 * (y ^ 2 + z ^ 2)) * (2 * (x * z - y * w)) * v.y + (2 * (x * y + z * w)) * v.z - (2 * (x * z - y * w)) * v.y * (Real.cos (atan2 (2 * (x * y + z * w)) (1 - 2 * (y ^ 2 + z ^ 2))) * cy - (1 - 2 * (y ^ 2 + z ^ 2))) + v.z * (Real.sin (atan2 (2 * (x * y + z * w)) (1 - 2 * (y ^ 2 + z ^ 2))) * cy - (2 * (x * y + z * w)))) * hsx + (-(2 * (x * y - z * w)) * v.y - (2 * (x * z + y * w)) * v.z) * hsq + (-v.y) * g1 + (-v.z) * g2 + (-(cy ^ 2) * v.x) * h
  · dsimp only
    apply mul_left_cancel₀ (pow_ne_zero 2 (ne_of_gt hcy0))
    linear_combination (v.y * (Real.cos (atan2 (2 * (y * z + x * w)) (1 - 2 * (x ^ 2 + y ^ 2))) * cy - (1 - 2 * (x ^ 2 + y ^ 2))) + (1 - 2 * (x ^ 2 + y ^ 2)) * v.y - v.z * (Real.sin (atan2 (2 * (y * z + x * w)) (1 - 2 * (x ^ 2 + y ^ 2))) * cy - (2 * (y * z + x * w))) - (2 * (y * z + x * w)) * v.z) * hcz + (cy ^ 2 * v.x - (2 * (x * z - y * w)) * (2 * (y * z + x * w)) * v.y - (2 * (x * z - y * w)) * (1 - 2 * (x ^ 2 + y ^ 2)) * v.z - (2 * (x * z - y * w)) * v.y * (Real.sin (atan2 (2 * (y * z + x * w)) (1 - 2 * (x ^ 2 + y ^ 2))) * cy - (2 * (y * z + x * w))) - (2 * (x * z - y * w)) * v.z * (Real.cos (atan2 (2 * (y * z + x * w)) (1 - 2 * (x ^ 2 + y ^ 2))) * cy - (1 - 2 * (x ^ 2 + y ^ 2)))) * hsz + ((1 - 2 * (y ^ 2 + z ^ 2)) * v.y - (2 * (x * y + z * w)) * (2 * (x * z - y * w)) * v.z) * hcx + (-(2 * (x * y + z * w)) * (2 * (x * z - y * w)) * v.y - (1 - 2 * (y ^ 2 + z ^ 2)) * v.z) * hsx + (-(1 - 2 * (x ^ 2 + z ^ 2)) * v.y - (2 * (y * z - x * w)) * v.z) * hsq + (-v.y) * g3 + (-v.z) * g4 + (-(cy ^ 2) * v.y) * h
  · dsimp only
    apply mul_left_cancel₀ (pow_ne_zero 2 (ne_of_gt hcy0))
    linear_combination (cy ^ 2 * v.y) * hsx + (cy ^ 2 * v.z) * hcx + (-(cy ^ 2) * v.z) * h

/-- C2 (counterexample): the round trip is not exact over the reals for
every unit quaternion.  `nearLockQuat` is a unit quaternion (a quarter
turn about z composed with a pitch whose cosine is `_EPS`) whose matrix
falls in the gimbal-lock branch; the branch forces yaw to 0, and the
rebuilt rotation moves `(1, 0, 0)` differently from the original. -/
theorem rotation_roundtrip_near_gimbal_cex :
    (nearLockQuat.x ^ 2 + nearLockQuat.y ^ 2 + nearLockQuat.z ^ 2 +
      nearLockQuat.w ^ 2 = 1) ∧
    rotAct (rotation_from_rpy (rpy_from_quaternion nearLockQuat)) ⟨1, 0, 0⟩ ≠
      rotAct nearLockQuat ⟨1, 0, 0⟩ := by
  have hs : Real.sqrt 2 ^ 2 = 2 := Real.sq_sqrt (by norm_num)
  have ha : Real.sqrt ((1 - _EPS) / 2) ^ 2 = (1 - _EPS) / 2 :=
    Real.sq_sqrt (by norm_num [_EPS, npFloatEps])
  have hb : Real.sqrt ((1 + _EPS) / 2) ^ 2 = (1 + _EPS) / 2 :=
    Real.sq_sqrt (by norm_num [_EPS, npFloatEps])
  have hEPS0 : (0 : ℝ) < _EPS := by norm_num [_EPS, npFloatEps]
  have hunit : nearLockQuat.x ^ 2 + nearLockQuat.y ^ 2 + nearLockQuat.z ^ 2 +
      nearLockQuat.w ^ 2 = 1 := by
    simp only [nearLockQuat]
    linear_combination (Real.sqrt ((1 - _EPS) / 2) ^ 2 / 2 +
      Real.sqrt ((1 + _EPS) / 2) ^ 2 / 2) * hs + ha + hb
  have hm00 : (1 : ℝ) - 2 * ((Real.sqrt 2 / 2 * Real.sqrt ((1 - _EPS) / 2)) ^ 2 +
      (Real.sqrt 2 / 2 * Real.sqrt ((1 + _EPS) / 2)) ^ 2) = 0 := by
    linear_combination (-(Real.sqrt ((1 - _EPS) / 2) ^ 2) / 2 -
      Real.sqrt ((1 + _EPS) / 2) ^ 2 / 2) * hs - ha - hb
  have hm10 : (2 : ℝ) * (-(Real.sqrt 2 / 2 * Real.sqrt ((1 - _EPS) / 2)) *
      (Real.sqrt 2 / 2 * Real.sqrt ((1 - _EPS) / 2)) +
      Real.sqrt 2 / 2 * Real.sqrt ((1 + _EPS) / 2) *
      (Real.sqrt 2 / 2 * Real.sqrt ((1 + _EPS) / 2))) = _EPS := by
    linear_combination (Real.sqrt ((1 + _EPS) / 2) ^ 2 / 2 -
      Real.sqrt ((1 - _EPS) / 2) ^ 2 / 2) * hs + hb - ha
  have hRy : (rotAct nearLockQuat ⟨1, 0, 0⟩).y = _EPS := by
    simp only [rotAct, quatMul, quatConj, nearLockQuat]
    linear_combination (Real.sqrt ((1 + _EPS) / 2) ^ 2 / 2 -
      Real.sqrt ((1 - _EPS) / 2) ^ 2 / 2) * hs + hb - ha
  have hLy : (rotAct (rotation_from_rpy (rpy_from_quaternion nearLockQuat))
      ⟨1, 0, 0⟩).y = 0 := by
    rw [rpy_from_quaternion, quaternion_matrix_unit nearLockQuat hunit]
    simp only [nearLockQuat, euler_from_matrix]
    rw [hm00, hm10]
    rw [show (0 : ℝ) * 0 + _EPS * _EPS = _EPS ^ 2 by ring,
      Real.sqrt_sq hEPS0.le, if_neg (lt_irrefl _EPS)]
    rw [rotAct_rotation_from_rpy]
    simp
  refine ⟨hunit, fun heq => ?_⟩
  have hy := congrArg Vec3.y heq
  rw [hLy, hRy] at hy
  rw [_EPS, npFloatEps] at hy
  norm_num at hy

/-- Witness for `rotation_roundtrip_exact` at the identity quaternion and
the vector `(1, 2, 3)`. -/
theorem rotation_roundtrip_exact_witness :
    ((0 : ℝ) ^ 2 + 0 ^ 2 + 0 ^ 2 + 1 ^ 2 = 1) ∧
    Real.sqrt ((quaternion_matrix ⟨0, 0, 0, 1⟩).m00 *
        (quaternion_matrix ⟨0, 0, 0, 1⟩).m00 +
      (quaternion_matrix ⟨0, 0, 0, 1⟩).m10 *
        (quaternion_matrix ⟨0, 0, 0, 1⟩).m10) > _EPS ∧
    rotAct (rotation_from_rpy (rpy_from_quaternion ⟨0, 0, 0, 1⟩)) ⟨1, 2, 3⟩ =
      rotAct ⟨0, 0, 0, 1⟩ ⟨1, 2, 3⟩ := by
  have h1 : ((0 : ℝ) ^ 2 + 0 ^ 2 + 0 ^ 2 + 1 ^ 2 = 1) := by norm_num
  have h2 : Real.sqrt ((quaternion_matrix ⟨0, 0, 0, 1⟩).m00 *
        (quaternion_matrix ⟨0, 0, 0, 1⟩).m00 +
      (quaternion_matrix ⟨0, 0, 0, 1⟩).m10 *
        (quaternion_matrix ⟨0, 0, 0, 1⟩).m10) > _EPS := by
    rw [quaternion_matrix_unit ⟨0, 0, 0, 1⟩ h1]
    norm_num [_EPS, npFloatEps]
  exact ⟨h1, h2, rotation_roundtrip_exact ⟨0, 0, 0, 1⟩ h1 h2 ⟨1, 2, 3⟩⟩
